import Mathlib

/-!
Shallow embedding of the AML detection staged decision pipeline
(orchestrator/pipeline.py, engines/expert/agent.py, engines/expert/typologies.py,
engines/expert/sar.py, shared/models.py, shared/config.py).

Modelling conventions:
- Python floats are modelled as ℚ (all thresholds and weights in the source are
  exact decimal constants).
- Wall-clock timing metadata (`processing_time_ms`, `model_used`) is elided.
- The two gate engines and the LLM reasoning service are external collaborators:
  the pipeline takes the gate analyzers as function parameters, and the expert
  agent takes the parsed reasoning-service response as a parameter.
- Pydantic `Field(ge=..., le=...)`/`Literal` validation, which raises at model
  construction, is modelled by `Option`-returning smart constructors
  (`mkTribunalInput`, `mkTribunalVerdict`); a `none` result corresponds to a
  `ValidationError` propagating out of the Python code.
- Human-readable report prose is assembled by plain concatenation; Python
  numeric format specifiers (thousands separators, fixed decimals) are elided,
  the functional dependence on the same inputs is kept.
-/

/-- Model of `shared.models.TransactionParty`. -/
structure TransactionParty where
  account_id : String
  bank_id : String
deriving DecidableEq

/-- Model of `shared.models.TransactionAmount`. -/
structure TransactionAmount where
  sent : ℚ
  received : ℚ
  currency_sent : String := "US Dollar"
  currency_received : String := "US Dollar"
deriving DecidableEq

/-- Model of `shared.models.Transaction`.  Timestamps are opaque rationals. -/
structure Transaction where
  txn_id : Option String := none
  sender : TransactionParty
  receiver : TransactionParty
  amount : TransactionAmount
  payment_format : String
  timestamp : ℚ
  is_laundering : Option Bool := none
deriving DecidableEq

/-- Model of the `Transaction.amount_sent` convenience property. -/
def Transaction.amount_sent (t : Transaction) : ℚ := t.amount.sent

/-- Model of `shared.models.AccountStats`. -/
structure AccountStats where
  total_transactions : Nat
  total_sent : ℚ
  total_received : ℚ
  avg_transaction_amount : ℚ
  std_transaction_amount : ℚ
  unique_counterparties : Nat
  payment_format_distribution : List (String × ℚ) := []
  hour_distribution : List (Nat × ℚ) := []
  first_transaction : ℚ
  last_transaction : ℚ
  transaction_frequency_per_day : ℚ
deriving DecidableEq

/-- Model of `shared.models.AccountHistory`. -/
structure AccountHistory where
  account_id : String
  bank_id : String
  stats : AccountStats
  recent_transactions : List Transaction := []
  cluster_id : Option Int := none
  profile_narrative : Option String := none
deriving DecidableEq

/-- Model of `shared.models.TribunalInput` (post-validation record). -/
structure TribunalInput where
  transaction : Transaction
  statistical_score : ℚ
  narrative_score : ℚ
  account_history : AccountHistory
  triggered_by : String
  counterparty_history : Option AccountHistory := none
  related_transactions : List Transaction := []
deriving DecidableEq

/-- Pydantic validation of `TribunalInput` construction: `statistical_score` is
declared `ge=0, le=10`, `narrative_score` is `ge=0, le=1`, and `triggered_by`
is a Literal over three strings; an out-of-bound argument raises, modelled by
`none`. -/
def mkTribunalInput (transaction : Transaction) (statistical_score narrative_score : ℚ)
    (account_history : AccountHistory) (triggered_by : String) : Option TribunalInput :=
  if 0 ≤ statistical_score ∧ statistical_score ≤ 10 ∧
      0 ≤ narrative_score ∧ narrative_score ≤ 1 ∧
      (triggered_by = "statistical" ∨ triggered_by = "narrative" ∨ triggered_by = "both") then
    some { transaction := transaction, statistical_score := statistical_score,
           narrative_score := narrative_score, account_history := account_history,
           triggered_by := triggered_by }
  else none

/-- Model of `shared.models.RiskFactor`; `severity` is one of the literal strings
used by the source ("low", "medium", "high", "critical"). -/
structure RiskFactor where
  factor : String
  severity : String
  description : String
  evidence : List String := []
deriving DecidableEq

/-- Model of `shared.models.RegulatoryReference`. -/
structure RegulatoryReference where
  source : String
  reference : String
  relevance : String
deriving DecidableEq

/-- Model of `shared.models.SARDraft`. -/
structure SARDraft where
  subject_account : String
  subject_name : Option String := none
  filing_institution : String := "Handle-AI"
  activity_type : String
  activity_date_range : ℚ × ℚ
  total_amount_involved : ℚ
  summary : String
  detailed_description : String
  transaction_ids : List String := []
  red_flags : List String := []
  regulatory_references : List RegulatoryReference := []
  recommended_action : String
deriving DecidableEq

/-- The pydantic Literal type of `TribunalVerdict.decision` and
`PipelineResult.final_decision`. -/
inductive Decision where
  | BLOCK
  | APPROVE
  | REVIEW
deriving DecidableEq

/-- Conversion of a raw decision string into the `Decision` Literal; any other
string fails pydantic validation. -/
def parseDecision : String → Option Decision
  | "BLOCK" => some Decision.BLOCK
  | "APPROVE" => some Decision.APPROVE
  | "REVIEW" => some Decision.REVIEW
  | _ => none

/-- Model of `shared.models.TribunalVerdict` (post-validation record); timing
and model-name metadata elided. -/
structure TribunalVerdict where
  decision : Decision
  confidence : ℚ
  typology : Option String := none
  typology_confidence : Option ℚ := none
  risk_factors : List RiskFactor := []
  risk_score : ℚ := 0
  citations : List RegulatoryReference := []
  sar_draft : Option SARDraft := none
  reasoning : String
deriving DecidableEq

/-- Pydantic validation of `TribunalVerdict` construction: `decision` is a
Literal, `confidence` is `ge=0, le=1`, `risk_score` is `ge=0, le=10`. -/
def mkTribunalVerdict (decision : String) (confidence : ℚ) (typology : Option String)
    (typology_confidence : Option ℚ) (risk_factors : List RiskFactor) (risk_score : ℚ)
    (citations : List RegulatoryReference) (sar_draft : Option SARDraft)
    (reasoning : String) : Option TribunalVerdict :=
  match parseDecision decision with
  | none => none
  | some d =>
    if 0 ≤ confidence ∧ confidence ≤ 1 ∧ 0 ≤ risk_score ∧ risk_score ≤ 10 then
      some { decision := d, confidence := confidence, typology := typology,
             typology_confidence := typology_confidence, risk_factors := risk_factors,
             risk_score := risk_score, citations := citations, sar_draft := sar_draft,
             reasoning := reasoning }
    else none

/-- Model of `shared.config.TribunalThresholds` with its defaults. -/
structure TribunalThresholds where
  statistical_gate : ℚ := 3.0
  narrative_gate : ℚ := 0.7
  expert_confidence_block : ℚ := 0.8
  expert_confidence_review : ℚ := 0.5
  target_layer1_filter_rate : ℚ := 0.98
  target_precision : ℚ := 0.15
  target_recall : ℚ := 0.70

/-- Model of the module-level `THRESHOLDS = TribunalThresholds()` singleton. -/
def THRESHOLDS : TribunalThresholds := {}

/-- Model of `shared.models.TypologyMatch`. -/
structure TypologyMatch where
  name : String
  confidence : ℚ
  signals_matched : List String
  description : String
deriving DecidableEq

/-- Description string from `shared.config.TYPOLOGIES["structuring"]`. -/
def structuring_description : String :=
  "Transactions just below reporting thresholds ($10K in US)"

/-- Description string from `shared.config.TYPOLOGIES["smurfing"]`. -/
def smurfing_description : String :=
  "Breaking large amounts into smaller deposits to avoid reporting thresholds"

/-- Description string from `shared.config.TYPOLOGIES["layering"]`. -/
def layering_description : String :=
  "Complex series of transactions to obscure money trail"

/-- Description string from `shared.config.TYPOLOGIES["tbml"]`. -/
def tbml_description : String :=
  "Using trade transactions to move value (over/under invoicing)"

/-- Description string from `shared.config.TYPOLOGIES["shell_company"]`. -/
def shell_company_description : String :=
  "Using shell companies as passthrough entities"

/-- Python float modulo test `amount % 100 == 0` for a rational amount: the
amount is an exact multiple of 100. -/
def isMultipleOf100 (a : ℚ) : Bool := (a / 100).den == 1

/-- Signal accumulation of `detect_structuring`: each matched signal appends its
identifier and adds its fixed weight. -/
def structuringSignals (input_data : TribunalInput) : List String × ℚ :=
  let amount := input_data.transaction.amount_sent
  let acc0 : List String × ℚ := ([], 0)
  let acc1 := if 9000 ≤ amount ∧ amount < 10000 then
    (acc0.1 ++ ["amount_near_10k_threshold"], acc0.2 + 0.4) else acc0
  let acc2 := if 2700 ≤ amount ∧ amount < 3000 then
    (acc1.1 ++ ["amount_near_3k_threshold"], acc1.2 + 0.3) else acc1
  let acc3 := if input_data.statistical_score > 5.0 then
    (acc2.1 ++ ["high_statistical_anomaly"], acc2.2 + 0.2) else acc2
  let acc4 := if input_data.narrative_score < 0.4 then
    (acc3.1 ++ ["low_narrative_coherence"], acc3.2 + 0.2) else acc3
  let acc5 := if isMultipleOf100 amount ∧ amount > 1000 then
    (acc4.1 ++ ["round_number_amount"], acc4.2 + 0.1) else acc4
  let acc6 := if input_data.account_history.stats.transaction_frequency_per_day > 3 then
    (acc5.1 ++ ["high_transaction_frequency"], acc5.2 + 0.15) else acc5
  acc6

/-- Port of `typologies.detect_structuring`. -/
def detect_structuring (input_data : TribunalInput) : Option TypologyMatch :=
  let acc := structuringSignals input_data
  if acc.2 ≥ 0.4 ∧ acc.1 ≠ [] then
    some { name := "Structuring", confidence := min acc.2 1.0,
           signals_matched := acc.1, description := structuring_description }
  else none

/-- Signal accumulation of `detect_smurfing`. -/
def smurfingSignals (input_data : TribunalInput) : List String × ℚ :=
  let amount := input_data.transaction.amount_sent
  let stats := input_data.account_history.stats
  let acc0 : List String × ℚ := ([], 0)
  let acc1 := if amount < 5000 ∧ stats.transaction_frequency_per_day > 2 then
    (acc0.1 ++ ["small_amount_high_frequency"], acc0.2 + 0.35) else acc0
  let acc2 := if stats.unique_counterparties > 20 then
    (acc1.1 ++ ["many_counterparties"], acc1.2 + 0.25) else acc1
  let acc3 := if input_data.statistical_score > 4.0 then
    (acc2.1 ++ ["statistical_anomaly"], acc2.2 + 0.15) else acc2
  let acc4 := if input_data.narrative_score < 0.5 then
    (acc3.1 ++ ["narrative_break"], acc3.2 + 0.15) else acc3
  let acc5 := if stats.total_sent > 0 ∧ stats.total_received > 0 ∧
      0.8 ≤ stats.total_sent / stats.total_received ∧
      stats.total_sent / stats.total_received ≤ 1.2 then
    (acc4.1 ++ ["balanced_in_out"], acc4.2 + 0.1) else acc4
  acc5

/-- Port of `typologies.detect_smurfing`. -/
def detect_smurfing (input_data : TribunalInput) : Option TypologyMatch :=
  let acc := smurfingSignals input_data
  if acc.2 ≥ 0.4 ∧ acc.1 ≠ [] then
    some { name := "Smurfing", confidence := min acc.2 1.0,
           signals_matched := acc.1, description := smurfing_description }
  else none

/-- Signal accumulation of `detect_layering`. -/
def layeringSignals (input_data : TribunalInput) : List String × ℚ :=
  let stats := input_data.account_history.stats
  let acc0 : List String × ℚ := ([], 0)
  let acc1 := if stats.transaction_frequency_per_day > 5 then
    (acc0.1 ++ ["very_high_frequency"], acc0.2 + 0.3) else acc0
  let acc2 := if stats.total_transactions > 100 then
    (acc1.1 ++ ["high_transaction_count"], acc1.2 + 0.2) else acc1
  let acc3 := if stats.total_sent > 0 ∧ stats.total_received > 0 ∧
      0.9 ≤ stats.total_sent / stats.total_received ∧
      stats.total_sent / stats.total_received ≤ 1.1 then
    (acc2.1 ++ ["in_equals_out"], acc2.2 + 0.25) else acc2
  let acc4 := if input_data.statistical_score > 6.0 then
    (acc3.1 ++ ["high_statistical_anomaly"], acc3.2 + 0.15) else acc3
  let acc5 := if input_data.narrative_score < 0.3 then
    (acc4.1 ++ ["very_low_coherence"], acc4.2 + 0.2) else acc4
  acc5

/-- Port of `typologies.detect_layering`. -/
def detect_layering (input_data : TribunalInput) : Option TypologyMatch :=
  let acc := layeringSignals input_data
  if acc.2 ≥ 0.5 ∧ acc.1 ≠ [] then
    some { name := "Layering", confidence := min acc.2 1.0,
           signals_matched := acc.1, description := layering_description }
  else none

/-- Signal accumulation of `detect_shell_company`. -/
def shellCompanySignals (input_data : TribunalInput) : List String × ℚ :=
  let stats := input_data.account_history.stats
  let acc0 : List String × ℚ := ([], 0)
  let acc1 := if stats.total_sent > 0 ∧ stats.total_received > 0 ∧
      0.95 ≤ stats.total_sent / stats.total_received ∧
      stats.total_sent / stats.total_received ≤ 1.05 then
    (acc0.1 ++ ["exact_passthrough"], acc0.2 + 0.35) else acc0
  let acc2 := if stats.unique_counterparties < 5 ∧ stats.total_transactions > 20 then
    (acc1.1 ++ ["limited_counterparties"], acc1.2 + 0.2) else acc1
  let acc3 := if stats.avg_transaction_amount > 50000 ∧
      stats.transaction_frequency_per_day < 1 then
    (acc2.1 ++ ["high_value_low_frequency"], acc2.2 + 0.25) else acc2
  let acc4 := if input_data.statistical_score > 5.0 then
    (acc3.1 ++ ["statistical_anomaly"], acc3.2 + 0.15) else acc3
  acc4

/-- Port of `typologies.detect_shell_company`. -/
def detect_shell_company (input_data : TribunalInput) : Option TypologyMatch :=
  let acc := shellCompanySignals input_data
  if acc.2 ≥ 0.4 ∧ acc.1 ≠ [] then
    some { name := "Shell Company Activity", confidence := min acc.2 1.0,
           signals_matched := acc.1, description := shell_company_description }
  else none

/-- Signal accumulation of `detect_tbml`. -/
def tbmlSignals (input_data : TribunalInput) : List String × ℚ :=
  let amount := input_data.transaction.amount_sent
  let stats := input_data.account_history.stats
  let acc0 : List String × ℚ := ([], 0)
  let acc1 := if amount > 100000 then
    (acc0.1 ++ ["high_value_transaction"], acc0.2 + 0.2) else acc0
  let acc2 := if stats.std_transaction_amount > stats.avg_transaction_amount then
    (acc1.1 ++ ["high_amount_variance"], acc1.2 + 0.25) else acc1
  let acc3 := if input_data.transaction.payment_format = "Wire" then
    (acc2.1 ++ ["wire_transfer"], acc2.2 + 0.1) else acc2
  let acc4 := if input_data.statistical_score > 7.0 then
    (acc3.1 ++ ["extreme_statistical_anomaly"], acc3.2 + 0.25) else acc3
  let acc5 := if input_data.narrative_score < 0.4 then
    (acc4.1 ++ ["narrative_break"], acc4.2 + 0.2) else acc4
  acc5

/-- Port of `typologies.detect_tbml`. -/
def detect_tbml (input_data : TribunalInput) : Option TypologyMatch :=
  let acc := tbmlSignals input_data
  if acc.2 ≥ 0.5 ∧ acc.1 ≠ [] then
    some { name := "Trade-Based Money Laundering", confidence := min acc.2 1.0,
           signals_matched := acc.1, description := tbml_description }
  else none

/-- The five detectors in declaration order, applied to the input; the loop body
of `detect_all_typologies` keeps the non-null results. -/
def typologyCandidates (input_data : TribunalInput) : List TypologyMatch :=
  [detect_structuring input_data, detect_smurfing input_data, detect_layering input_data,
   detect_shell_company input_data, detect_tbml input_data].filterMap id

/-- The comparison used by `matches.sort(key=lambda m: m.confidence, reverse=True)`:
a stable sort placing higher confidence first. -/
def confidenceGE (a b : TypologyMatch) : Bool := decide (b.confidence ≤ a.confidence)

/-- Port of `typologies.detect_all_typologies`. -/
def detect_all_typologies (input_data : TribunalInput) : List TypologyMatch :=
  (typologyCandidates input_data).mergeSort confidenceGE

/-- Port of `typologies.get_risk_factors`. -/
def get_risk_factors (input_data : TribunalInput) (typology_match : Option TypologyMatch) :
    List RiskFactor :=
  let statFactors : List RiskFactor :=
    if input_data.statistical_score > 7.0 then
      [{ factor := "Extreme Statistical Anomaly", severity := "critical",
         description := "Transaction has statistical anomaly score of " ++
           toString input_data.statistical_score ++ " (threshold: 3.0)",
         evidence := ["Z-score: " ++ toString input_data.statistical_score] }]
    else if input_data.statistical_score > 5.0 then
      [{ factor := "High Statistical Anomaly", severity := "high",
         description := "Transaction deviates significantly from peer group baseline",
         evidence := ["Z-score: " ++ toString input_data.statistical_score] }]
    else []
  let narrFactors : List RiskFactor :=
    if input_data.narrative_score < 0.3 then
      [{ factor := "Severe Narrative Break", severity := "critical",
         description := "Transaction is highly inconsistent with customer's behavioral history",
         evidence := ["Coherence score: " ++ toString input_data.narrative_score] }]
    else if input_data.narrative_score < 0.5 then
      [{ factor := "Narrative Inconsistency", severity := "high",
         description := "Transaction does not fit customer's typical pattern",
         evidence := ["Coherence score: " ++ toString input_data.narrative_score] }]
    else []
  let typFactors : List RiskFactor :=
    match typology_match with
    | some t =>
      [{ factor := t.name ++ " Pattern Detected",
         severity := if t.confidence > 0.7 then "critical" else "high",
         description := t.description, evidence := t.signals_matched }]
    | none => []
  let amount := input_data.transaction.amount_sent
  let amountFactors : List RiskFactor :=
    if 9000 ≤ amount ∧ amount < 10000 then
      [{ factor := "Near-Threshold Amount", severity := "medium",
         description := "Transaction amount is just below $10,000 reporting threshold",
         evidence := ["Amount: $" ++ toString amount] }]
    else []
  statFactors ++ narrFactors ++ typFactors ++ amountFactors

/-- Python substring containment (`pattern in s`), used by the report-reference
lookup. -/
def strContainsSubstr (s pattern : String) : Bool :=
  s.toList.tails.any (fun t => pattern.toList.isPrefixOf t)

/-- Port of `sar._get_regulatory_references`. -/
def getRegulatoryReferences (activity_type : String) : List RegulatoryReference :=
  let common : List RegulatoryReference :=
    [{ source := "FATF", reference := "Recommendation 20",
       relevance := "Reporting of suspicious transactions" }]
  let specific : List RegulatoryReference :=
    if activity_type = "Structuring" then
      [{ source := "FinCEN", reference := "31 CFR 1010.314",
         relevance := "Structuring transactions to evade reporting requirements" },
       { source := "FATF", reference := "Recommendation 10",
         relevance := "Customer due diligence for suspicious patterns" }]
    else if activity_type = "Smurfing" then
      [{ source := "FATF", reference := "Recommendation 10",
         relevance := "Customer due diligence and ongoing monitoring" },
       { source := "EU AMLD6", reference := "Article 3(4)(f)",
         relevance := "Money laundering through multiple transactions" }]
    else if activity_type = "Layering" then
      [{ source := "FATF", reference := "Recommendation 16",
         relevance := "Wire transfers and beneficiary information" },
       { source := "EU AMLR", reference := "Article 50",
         relevance := "Enhanced monitoring for complex transactions" }]
    else if strContainsSubstr activity_type "Trade" then
      [{ source := "FATF", reference := "Trade-Based Money Laundering Typologies Report",
         relevance := "Red flags and detection methods for TBML" },
       { source := "Wolfsberg", reference := "Trade Finance Principles",
         relevance := "Due diligence for trade transactions" }]
    else if strContainsSubstr activity_type "Shell" then
      [{ source := "FATF", reference := "Recommendation 24",
         relevance := "Transparency of beneficial ownership" },
       { source := "EU AMLD5", reference := "Article 30",
         relevance := "Beneficial ownership registers" }]
    else []
  common ++ specific

/-- Port of `sar._generate_summary`; numeric formatting elided, the assembled
content depends on the same inputs as the source. -/
def generateSummary (input_data : TribunalInput) (typology_match : Option TypologyMatch)
    (risk_factors : List RiskFactor) : String :=
  let tx := input_data.transaction
  let stats := input_data.account_history.stats
  let typology_text := match typology_match with
    | some t => t.name
    | none => "suspicious activity"
  let base :=
    "Account " ++ input_data.account_history.account_id ++
    " has been flagged for potential " ++ typology_text ++ ". A transaction of $" ++
    toString tx.amount_sent ++ " via " ++ tx.payment_format ++ " on " ++
    toString tx.timestamp ++ " triggered automated detection systems. " ++
    "The account has processed " ++ toString stats.total_transactions ++
    " transactions totaling $" ++ toString stats.total_sent ++ " sent and $" ++
    toString stats.total_received ++ " received. Statistical analysis indicates a " ++
    toString input_data.statistical_score ++ "/10 anomaly score, and narrative coherence " ++
    "analysis shows " ++ toString input_data.narrative_score ++ " consistency with " ++
    "historical behavior."
  if risk_factors ≠ [] then
    base ++ " " ++ toString risk_factors.length ++ " risk factors were identified."
  else base

/-- Port of `sar._generate_detailed_description`; prose formatting elided, the
sections and their conditional inclusion follow the source. -/
def generateDetailedDescription (input_data : TribunalInput)
    (typology_match : Option TypologyMatch) (risk_factors : List RiskFactor)
    (reasoning : String) : String :=
  let tx := input_data.transaction
  let stats := input_data.account_history.stats
  let txSection :=
    "TRANSACTION DETAILS: " ++ (tx.txn_id.getD "N/A") ++ " " ++ toString tx.timestamp ++
    " $" ++ toString tx.amount_sent ++ " " ++ tx.amount.currency_sent ++ " $" ++
    toString tx.amount.received ++ " " ++ tx.amount.currency_received ++ " " ++
    tx.payment_format ++ " " ++ tx.sender.account_id ++ " " ++ tx.sender.bank_id ++
    " " ++ tx.receiver.account_id ++ " " ++ tx.receiver.bank_id
  let historySection :=
    "ACCOUNT HISTORY: " ++ toString stats.total_transactions ++ " $" ++
    toString stats.total_sent ++ " $" ++ toString stats.total_received ++ " $" ++
    toString stats.avg_transaction_amount ++ " " ++ toString stats.unique_counterparties ++
    " " ++ toString stats.transaction_frequency_per_day ++ "/day " ++
    toString stats.first_transaction
  let scoresSection :=
    "DETECTION ANALYSIS: " ++ toString input_data.statistical_score ++ "/10.0 " ++
    toString input_data.narrative_score ++ " " ++ input_data.triggered_by
  let typSections := match typology_match with
    | some t =>
      ["TYPOLOGY ANALYSIS: " ++ t.name ++ " " ++ toString t.confidence ++ " " ++
       t.description ++ " " ++ String.intercalate " * " t.signals_matched]
    | none => []
  let riskSections :=
    if risk_factors ≠ [] then
      ["RISK FACTORS: " ++ String.intercalate " " (risk_factors.map (fun f =>
        f.factor ++ " [" ++ f.severity ++ "] " ++ f.description ++
        (if f.evidence ≠ [] then " Evidence: " ++ String.intercalate ", " f.evidence else "")))]
    else []
  let sections := [txSection, historySection, scoresSection] ++ typSections ++
    riskSections ++ ["AI ANALYSIS: " ++ reasoning]
  String.intercalate "\n\n" sections

/-- Port of `sar.generate_sar_draft`. -/
def generate_sar_draft (input_data : TribunalInput) (typology_match : Option TypologyMatch)
    (risk_factors : List RiskFactor) (reasoning : String) : SARDraft :=
  let tx := input_data.transaction
  let stats := input_data.account_history.stats
  let activity_type := match typology_match with
    | some t => t.name
    | none => "Unusual Activity"
  let red_flags :=
    risk_factors.map (fun factor => factor.factor ++ ": " ++ factor.description) ++
    (match typology_match with
     | some t => t.signals_matched.map (fun s => "Signal: " ++ s)
     | none => [])
  let references := getRegulatoryReferences activity_type
  let summary := generateSummary input_data typology_match risk_factors
  let detailed_description :=
    generateDetailedDescription input_data typology_match risk_factors reasoning
  let typHigh : Bool := match typology_match with
    | some t => decide (t.confidence > 0.7)
    | none => false
  let recommended_action :=
    if typHigh then "file_sar"
    else if risk_factors.any (fun f => f.severity == "critical") then "file_sar"
    else if risk_factors.length ≥ 3 then "escalate_to_compliance"
    else "enhanced_monitoring"
  { subject_account := input_data.account_history.account_id,
    subject_name := none,
    filing_institution := "Handle-AI",
    activity_type := activity_type,
    activity_date_range := (stats.first_transaction, tx.timestamp),
    total_amount_involved := stats.total_sent + tx.amount_sent,
    summary := summary,
    detailed_description := detailed_description,
    transaction_ids := match tx.txn_id with
      | some i => if i = "" then [] else [i]
      | none => [],
    red_flags := red_flags,
    regulatory_references := references,
    recommended_action := recommended_action }

/-- Model of the dict parsed from the reasoning service's JSON response; a
`none` field models an absent key (so `dict.get(key, default)` is `Option.getD`). -/
structure LLMDict where
  decision : Option String := none
  confidence : Option ℚ := none
  reasoning : Option String := none
  key_risk_factors : Option (List String) := none
  regulatory_citations : Option (List String) := none
deriving DecidableEq

/-- Python `str.split()` with no separator: split on whitespace runs, dropping
empty pieces. -/
def pySplitWhitespace (s : String) : List String :=
  (s.split (fun c => c.isWhitespace)).filter (fun t => t ≠ "")

/-- One iteration of the citation-building loop in `ExpertAgent.analyze`:
`ref.split()[0] if ref else "Unknown"`.  A whitespace-only `ref` is truthy but
splits to an empty list, so the `[0]` indexing raises — modelled by `none`. -/
def buildCitation (ref : String) : Option RegulatoryReference :=
  let source? : Option String :=
    if ref = "" then some "Unknown" else (pySplitWhitespace ref).head?
  source?.map (fun s =>
    { source := s, reference := ref, relevance := "Cited by Expert Agent" })

/-- Left-brace character, written via its code point. -/
def lbrace : Char := Char.ofNat 123

/-- Right-brace character, written via its code point. -/
def rbrace : Char := Char.ofNat 125

/-- Python `str.find`: index of the first occurrence, or -1. -/
def pyFind (s : String) (c : Char) : Int :=
  match s.toList.findIdx? (fun x => x == c) with
  | some i => (i : Int)
  | none => -1

/-- Python `str.rfind`: index of the last occurrence, or -1. -/
def pyRFind (s : String) (c : Char) : Int :=
  match s.toList.reverse.findIdx? (fun x => x == c) with
  | some i => (s.toList.length : Int) - 1 - (i : Int)
  | none => -1

/-- Python slice `s[a:b]` for `0 ≤ a ≤ b`. -/
def pySlice (s : String) (a b : Nat) : String :=
  String.mk ((s.toList.drop a).take (b - a))

/-- Port of the response-parsing tail of `ExpertAgent._get_llm_decision`.  The
reasoning service call itself is external; `jsonParse` models `json.loads`
specialised to the expected object shape, returning `none` on a
`JSONDecodeError`. -/
def getLLMDecision (response : String) (jsonParse : String → Option LLMDict) : LLMDict :=
  let json_start := pyFind response lbrace
  let json_end := pyRFind response rbrace + 1
  let parsed : Option LLMDict :=
    if 0 ≤ json_start ∧ json_start < json_end then
      jsonParse (pySlice response json_start.toNat json_end.toNat)
    else none
  match parsed with
  | some d => d
  | none =>
    { decision := some "REVIEW", confidence := some 0.5, reasoning := some response,
      key_risk_factors := some [], regulatory_citations := some [] }

/-- The confidence-floor downgrade step of `ExpertAgent.analyze` (source lines
142-149), factored out: starting from `decision = llm_result.get("decision",
"REVIEW")` and `confidence = llm_result.get("confidence", 0.5)`, a low-confidence
`BLOCK` or `APPROVE` is demoted to `REVIEW`. -/
def adjustedDecision (llm_result : LLMDict) : String :=
  let decision := llm_result.decision.getD "REVIEW"
  let confidence := llm_result.confidence.getD 0.5
  if decision = "BLOCK" ∧ confidence < THRESHOLDS.expert_confidence_block then "REVIEW"
  else if decision = "APPROVE" ∧ confidence < THRESHOLDS.expert_confidence_review then
    "REVIEW"
  else decision

/-- Port of `ExpertAgent.analyze`; `llm_result` is the dict returned by
`_get_llm_decision` (the RAG context only feeds the prompt and does not affect
the verdict computation).  A `none` result models an uncaught exception
(pydantic `ValidationError` or the citation-indexing error). -/
def ExpertAgent.analyze (input_data : TribunalInput) (llm_result : LLMDict) :
    Option TribunalVerdict :=
  let typology_matches := detect_all_typologies input_data
  let primary_typology := typology_matches.head?
  let risk_factors := get_risk_factors input_data primary_typology
  let confidence := llm_result.confidence.getD 0.5
  let decision := adjustedDecision llm_result
  let sar_draft : Option SARDraft :=
    if decision = "BLOCK" ∨ decision = "REVIEW" then
      some (generate_sar_draft input_data primary_typology risk_factors
        (llm_result.reasoning.getD ""))
    else none
  match (llm_result.regulatory_citations.getD []).mapM buildCitation with
  | none => none
  | some citations =>
    mkTribunalVerdict decision confidence (primary_typology.map (fun t => t.name))
      (primary_typology.map (fun t => t.confidence)) risk_factors
      input_data.statistical_score citations sar_draft (llm_result.reasoning.getD "")

/-- Model of `engines.statistical.engine.StatisticalResult` (the statistical
gate's output contract). -/
structure StatResult where
  score : ℚ
  cluster_id : Int := 0
  z_score : ℚ := 0
  passed : Bool
  details : List (String × String) := []
deriving DecidableEq

/-- Model of `engines.narrative.engine.NarrativeResult` (the narrative gate's
output contract). -/
structure NarrResult where
  score : ℚ
  passed : Bool
  details : List (String × String) := []
deriving DecidableEq

/-- Model of `shared.models.LayerResult`; timing elided. -/
structure LayerResult where
  layer : String
  score : ℚ
  passed : Bool
  details : List (String × String) := []
deriving DecidableEq

/-- Model of `shared.models.PipelineResult`; timing elided. -/
structure PipelineResult where
  transaction_id : Option String := none
  statistical_result : LayerResult
  narrative_result : Option LayerResult := none
  expert_result : Option TribunalVerdict := none
  final_decision : Decision
  final_confidence : ℚ
  layers_invoked : List String
deriving DecidableEq

/-- Port of `orchestrator.pipeline.Pipeline.process`.  The two gate engines are
external collaborators passed as functions, and `llm_result` is the parsed
reasoning-service response consumed by the expert agent if Layer 3 runs.  A
`none` result models an exception propagating to the caller. -/
def Pipeline.process (statAnalyze : Transaction → AccountHistory → StatResult)
    (narrAnalyze : Transaction → AccountHistory → NarrResult)
    (llm_result : LLMDict) (transaction : Transaction) (history : AccountHistory) :
    Option PipelineResult :=
  let stat_result := statAnalyze transaction history
  let layer1 : LayerResult :=
    { layer := "statistical", score := stat_result.score, passed := stat_result.passed,
      details := stat_result.details }
  if stat_result.passed then
    some { transaction_id := transaction.txn_id, statistical_result := layer1,
           narrative_result := none, expert_result := none,
           final_decision := Decision.APPROVE,
           final_confidence := 1.0 - stat_result.score / 10.0,
           layers_invoked := ["statistical"] }
  else
    let narr_result := narrAnalyze transaction history
    let layer2 : LayerResult :=
      { layer := "narrative", score := narr_result.score, passed := narr_result.passed,
        details := narr_result.details }
    if narr_result.passed then
      some { transaction_id := transaction.txn_id, statistical_result := layer1,
             narrative_result := some layer2, expert_result := none,
             final_decision := Decision.APPROVE,
             final_confidence := narr_result.score,
             layers_invoked := ["statistical", "narrative"] }
    else
      let triggered_by :=
        if !stat_result.passed && !narr_result.passed then "both"
        else if !stat_result.passed then "statistical"
        else "narrative"
      match mkTribunalInput transaction stat_result.score narr_result.score history
          triggered_by with
      | none => none
      | some tribunal_input =>
        match ExpertAgent.analyze tribunal_input llm_result with
        | none => none
        | some verdict =>
          some { transaction_id := transaction.txn_id, statistical_result := layer1,
                 narrative_result := some layer2, expert_result := some verdict,
                 final_decision := verdict.decision,
                 final_confidence := verdict.confidence,
                 layers_invoked := ["statistical", "narrative", "expert"] }

/-- Any `Decision` is one of the three literals. -/
theorem Decision.eq_block_or_approve_or_review (d : Decision) :
    d = Decision.BLOCK ∨ d = Decision.APPROVE ∨ d = Decision.REVIEW := by
  cases d <;> simp

/-- Inversion for `parseDecision`. -/
theorem parseDecision_some {s : String} {d : Decision} (h : parseDecision s = some d) :
    (s = "BLOCK" ∧ d = Decision.BLOCK) ∨ (s = "APPROVE" ∧ d = Decision.APPROVE) ∨
    (s = "REVIEW" ∧ d = Decision.REVIEW) := by
  unfold parseDecision at h
  split at h <;> simp_all

/-- A firing detector emits a confidence clamped into the unit interval: the
activation gate bounds it below, the `min` clamp bounds it above. -/
theorem matchGate_bounds {name descr : String} {acc : List String × ℚ} {floor : ℚ}
    {m : TypologyMatch} (hfloor : 0 ≤ floor)
    (h : (if acc.2 ≥ floor ∧ acc.1 ≠ [] then
            some { name := name, confidence := min acc.2 1.0, signals_matched := acc.1,
                   description := descr }
          else none) = some m) :
    0 ≤ m.confidence ∧ m.confidence ≤ 1 := by
  split at h
  · next hc =>
      injection h with h2
      subst h2
      refine ⟨le_min (le_trans hfloor hc.1) (by norm_num), ?_⟩
      have h3 : min acc.2 (1.0 : ℚ) ≤ 1 := le_trans (min_le_right _ _) (by norm_num)
      exact h3
  · next => exact absurd h (by simp)

/-- Confidence bound for `detect_structuring`. -/
theorem detect_structuring_bounds {i : TribunalInput} {m : TypologyMatch}
    (h : detect_structuring i = some m) : 0 ≤ m.confidence ∧ m.confidence ≤ 1 := by
  unfold detect_structuring at h
  exact matchGate_bounds (by norm_num) h

/-- Confidence bound for `detect_smurfing`. -/
theorem detect_smurfing_bounds {i : TribunalInput} {m : TypologyMatch}
    (h : detect_smurfing i = some m) : 0 ≤ m.confidence ∧ m.confidence ≤ 1 := by
  unfold detect_smurfing at h
  exact matchGate_bounds (by norm_num) h

/-- Confidence bound for `detect_layering`. -/
theorem detect_layering_bounds {i : TribunalInput} {m : TypologyMatch}
    (h : detect_layering i = some m) : 0 ≤ m.confidence ∧ m.confidence ≤ 1 := by
  unfold detect_layering at h
  exact matchGate_bounds (by norm_num) h

/-- Confidence bound for `detect_shell_company`. -/
theorem detect_shell_company_bounds {i : TribunalInput} {m : TypologyMatch}
    (h : detect_shell_company i = some m) : 0 ≤ m.confidence ∧ m.confidence ≤ 1 := by
  unfold detect_shell_company at h
  exact matchGate_bounds (by norm_num) h

/-- Confidence bound for `detect_tbml`. -/
theorem detect_tbml_bounds {i : TribunalInput} {m : TypologyMatch}
    (h : detect_tbml i = some m) : 0 ≤ m.confidence ∧ m.confidence ≤ 1 := by
  unfold detect_tbml at h
  exact matchGate_bounds (by norm_num) h

/-- The sort comparison is transitive. -/
theorem confidenceGE_trans : ∀ a b c : TypologyMatch,
    confidenceGE a b → confidenceGE b c → confidenceGE a c := by
  intro a b c hab hbc
  simp only [confidenceGE, decide_eq_true_eq] at *
  exact le_trans hbc hab

/-- The sort comparison is total. -/
theorem confidenceGE_total : ∀ a b : TypologyMatch,
    confidenceGE a b || confidenceGE b a := by
  intro a b
  simp only [confidenceGE, Bool.or_eq_true, decide_eq_true_eq]
  exact le_total b.confidence a.confidence

/-- Stability of the confidence sort: the elements of any fixed confidence
class appear in the output exactly as they appear in the input. -/
theorem mergeSort_filter_confidence (l : List TypologyMatch) (q : ℚ) :
    (l.mergeSort confidenceGE).filter (fun m => decide (m.confidence = q)) =
      l.filter (fun m => decide (m.confidence = q)) := by
  set P : TypologyMatch → Bool := fun m => decide (m.confidence = q) with hP
  have hmemP : ∀ x ∈ l.filter P, P x := fun x hx => (List.mem_filter.mp hx).2
  have hpair : (l.filter P).Pairwise (fun a b => confidenceGE a b = true) := by
    apply List.pairwise_of_forall_mem_list
    intro a ha b hb
    have ha2 : a.confidence = q := by simpa [hP] using hmemP a ha
    have hb2 : b.confidence = q := by simpa [hP] using hmemP b hb
    simp [confidenceGE, ha2, hb2]
  have hsub : List.Sublist (l.filter P) (l.mergeSort confidenceGE) :=
    List.sublist_mergeSort confidenceGE_trans confidenceGE_total hpair (List.filter_sublist l)
  have hsub2 : List.Sublist (l.filter P) ((l.mergeSort confidenceGE).filter P) := by
    have h2 := hsub.filter P
    simpa only [List.filter_filter, Bool.and_self] using h2
  have hperm : List.Perm ((l.mergeSort confidenceGE).filter P) (l.filter P) :=
    (List.mergeSort_perm l confidenceGE).filter P
  exact (hsub2.eq_of_length hperm.length_eq.symm).symm

/-- Inversion for the validated verdict constructor. -/
theorem mkTribunalVerdict_some {decision : String} {confidence : ℚ} {ty : Option String}
    {tyc : Option ℚ} {rf : List RiskFactor} {rs : ℚ} {cs : List RegulatoryReference}
    {sa : Option SARDraft} {re : String} {v : TribunalVerdict}
    (h : mkTribunalVerdict decision confidence ty tyc rf rs cs sa re = some v) :
    parseDecision decision = some v.decision ∧ v.confidence = confidence ∧
    v.typology = ty ∧ v.typology_confidence = tyc ∧ v.risk_factors = rf ∧
    v.risk_score = rs ∧ v.citations = cs ∧ v.sar_draft = sa ∧ v.reasoning = re ∧
    0 ≤ confidence ∧ confidence ≤ 1 ∧ 0 ≤ rs ∧ rs ≤ 10 := by
  unfold mkTribunalVerdict at h
  rcases hpd : parseDecision decision with _ | d <;> rw [hpd] at h
  · exact absurd h (by simp)
  · dsimp only at h
    split at h
    · next hb =>
        injection h with h2
        subst h2
        exact ⟨rfl, rfl, rfl, rfl, rfl, rfl, rfl, rfl, rfl,
               hb.1, hb.2.1, hb.2.2.1, hb.2.2.2⟩
    · exact absurd h (by simp)

/-- Inversion for `ExpertAgent.analyze`: every field of a successfully returned
verdict, characterised in terms of the inputs. -/
theorem analyze_some_spec {i : TribunalInput} {llm : LLMDict} {v : TribunalVerdict}
    (h : ExpertAgent.analyze i llm = some v) :
    (∃ cs, (llm.regulatory_citations.getD []).mapM buildCitation = some cs ∧
      v.citations = cs) ∧
    v.confidence = llm.confidence.getD 0.5 ∧ 0 ≤ v.confidence ∧ v.confidence ≤ 1 ∧
    v.risk_score = i.statistical_score ∧
    v.typology = ((detect_all_typologies i).head?).map (fun t => t.name) ∧
    v.typology_confidence = ((detect_all_typologies i).head?).map (fun t => t.confidence) ∧
    v.risk_factors = get_risk_factors i (detect_all_typologies i).head? ∧
    v.reasoning = llm.reasoning.getD "" ∧
    parseDecision (adjustedDecision llm) = some v.decision ∧
    v.sar_draft = (if adjustedDecision llm = "BLOCK" ∨ adjustedDecision llm = "REVIEW" then
      some (generate_sar_draft i (detect_all_typologies i).head?
        (get_risk_factors i (detect_all_typologies i).head?) (llm.reasoning.getD ""))
      else none) := by
  unfold ExpertAgent.analyze at h
  rcases hcs : (llm.regulatory_citations.getD []).mapM buildCitation with _ | cs
  · rw [hcs] at h
    exact absurd h (by simp)
  · rw [hcs] at h
    have hmk := mkTribunalVerdict_some h
    obtain ⟨hdec, hconf, hty, htyc, hrf, hrs, hcit, hsar, hre, hb1, hb2, _, _⟩ := hmk
    refine ⟨⟨cs, rfl, hcit⟩, hconf, ?_, ?_, hrs, hty, htyc, hrf, hre, hdec, hsar⟩
    · rw [hconf]; exact hb1
    · rw [hconf]; exact hb2

/-- A typology risk-factor name can never collide with the near-threshold
factor name. -/
theorem pattern_detected_ne_near_threshold (s : String) :
    s ++ " Pattern Detected" ≠ "Near-Threshold Amount" := by
  intro h
  have h2 : s.data ++ (" Pattern Detected").data = ("Near-Threshold Amount").data := by
    rw [← String.data_append, h]
  have h3 : s.data.length + (" Pattern Detected").data.length =
      ("Near-Threshold Amount").data.length := by
    rw [← List.length_append, h2]
  have hsfx : (" Pattern Detected").data.length = 17 := rfl
  have htgt : ("Near-Threshold Amount").data.length = 21 := rfl
  have hlen : s.data.length = 4 := by omega
  have h4 : (" Pattern Detected").data = ("Near-Threshold Amount").data.drop 4 := by
    rw [← h2, ← hlen, List.drop_left]
  exact absurd h4 (by decide)

/-- C3: after parsing the reasoning service's response, a `BLOCK` below the
block confidence floor and an `APPROVE` below the review confidence floor are
demoted to `REVIEW`; in all other cases the parsed decision is kept. -/
theorem expert_confidence_floor_downgrade (i : TribunalInput) (llm : LLMDict)
    (v : TribunalVerdict) (h : ExpertAgent.analyze i llm = some v) :
    (llm.decision.getD "REVIEW" = "BLOCK" →
      llm.confidence.getD 0.5 < THRESHOLDS.expert_confidence_block →
      v.decision = Decision.REVIEW) ∧
    (llm.decision.getD "REVIEW" = "APPROVE" →
      llm.confidence.getD 0.5 < THRESHOLDS.expert_confidence_review →
      v.decision = Decision.REVIEW) ∧
    (¬(llm.decision.getD "REVIEW" = "BLOCK" ∧
        llm.confidence.getD 0.5 < THRESHOLDS.expert_confidence_block) →
      ¬(llm.decision.getD "REVIEW" = "APPROVE" ∧
        llm.confidence.getD 0.5 < THRESHOLDS.expert_confidence_review) →
      parseDecision (llm.decision.getD "REVIEW") = some v.decision) := by
  have hspec := analyze_some_spec h
  have hdec := hspec.2.2.2.2.2.2.2.2.2.1
  refine ⟨?_, ?_, ?_⟩
  · intro hB hc
    have hadj : adjustedDecision llm = "REVIEW" := by
      simp only [adjustedDecision]
      rw [if_pos ⟨hB, hc⟩]
    rw [hadj] at hdec
    exact (Option.some.inj hdec).symm
  · intro hA hc
    have hadj : adjustedDecision llm = "REVIEW" := by
      simp only [adjustedDecision]
      rw [if_neg (fun hc2 => absurd (hA ▸ hc2.1) (by decide)), if_pos ⟨hA, hc⟩]
    rw [hadj] at hdec
    exact (Option.some.inj hdec).symm
  · intro hnB hnA
    have hadj : adjustedDecision llm = llm.decision.getD "REVIEW" := by
      simp only [adjustedDecision]
      rw [if_neg hnB, if_neg hnA]
    rw [hadj] at hdec
    exact hdec

/-- C4: the verdict carries a report draft exactly when its final (post
downgrade) decision is `BLOCK` or `REVIEW`; an `APPROVE` verdict carries none. -/
theorem sar_draft_iff_block_or_review (i : TribunalInput) (llm : LLMDict)
    (v : TribunalVerdict) (h : ExpertAgent.analyze i llm = some v) :
    (v.sar_draft ≠ none ↔
      v.decision = Decision.BLOCK ∨ v.decision = Decision.REVIEW) ∧
    (v.decision = Decision.APPROVE → v.sar_draft = none) := by
  have hspec := analyze_some_spec h
  have hdec := hspec.2.2.2.2.2.2.2.2.2.1
  have hsar := hspec.2.2.2.2.2.2.2.2.2.2
  rcases parseDecision_some hdec with ⟨hs, hd⟩ | ⟨hs, hd⟩ | ⟨hs, hd⟩ <;> rw [hs] at hsar
  · rw [if_pos (Or.inl rfl)] at hsar
    refine ⟨by simp [hsar, hd], ?_⟩
    intro hap
    exact absurd (hd.symm.trans hap) (by decide)
  · rw [if_neg (by decide)] at hsar
    exact ⟨by simp [hsar, hd], fun _ => hsar⟩
  · rw [if_pos (Or.inr rfl)] at hsar
    refine ⟨by simp [hsar, hd], ?_⟩
    intro hap
    exact absurd (hd.symm.trans hap) (by decide)

/-- C10: the confidence-floor downgrade can change only the decision: the
verdict's confidence is always the parsed (or fallback 0.5) confidence, and
typology, risk factors, risk score, citations and reasoning are determined by
the input and the response irrespective of any demotion. -/
theorem downgrade_frame_invariance (i : TribunalInput) (llm : LLMDict)
    (v : TribunalVerdict) (h : ExpertAgent.analyze i llm = some v) :
    v.confidence = llm.confidence.getD 0.5 ∧
    v.typology = ((detect_all_typologies i).head?).map (fun t => t.name) ∧
    v.typology_confidence = ((detect_all_typologies i).head?).map (fun t => t.confidence) ∧
    v.risk_factors = get_risk_factors i (detect_all_typologies i).head? ∧
    v.risk_score = i.statistical_score ∧
    (∃ cs, (llm.regulatory_citations.getD []).mapM buildCitation = some cs ∧
      v.citations = cs) ∧
    v.reasoning = llm.reasoning.getD "" := by
  have hspec := analyze_some_spec h
  exact ⟨hspec.2.1, hspec.2.2.2.2.2.1, hspec.2.2.2.2.2.2.1, hspec.2.2.2.2.2.2.2.1,
         hspec.2.2.2.2.1, hspec.1, hspec.2.2.2.2.2.2.2.2.1⟩

/-- C6: when no well-formed JSON object can be extracted between the first
left brace and the last right brace of the reasoning service's response, the
adjudicator falls back locally (total, no exception): decision `REVIEW`,
confidence 0.5, reasoning the raw response, empty factor and citation lists. -/
theorem llm_parse_failure_fallback (response : String)
    (jsonParse : String → Option LLMDict)
    (h : 0 ≤ pyFind response lbrace → pyFind response lbrace < pyRFind response rbrace + 1 →
      jsonParse (pySlice response (pyFind response lbrace).toNat
        (pyRFind response rbrace + 1).toNat) = none) :
    getLLMDecision response jsonParse =
      { decision := some "REVIEW", confidence := some 0.5, reasoning := some response,
        key_risk_factors := some [], regulatory_citations := some [] } := by
  simp only [getLLMDecision]
  by_cases hc : 0 ≤ pyFind response lbrace ∧
      pyFind response lbrace < pyRFind response rbrace + 1
  · rw [if_pos hc, h hc.1 hc.2]
  · rw [if_neg hc]

/-- C5: `detect_all_typologies` returns exactly the non-null results of the
five detectors (a permutation of the declaration-order candidate list), sorted
by confidence descending, stably (every confidence class keeps declaration
order), and every returned confidence lies in [0,1]. -/
theorem detect_all_typologies_sorted_bounded (i : TribunalInput) :
    List.Perm (detect_all_typologies i) (typologyCandidates i) ∧
    (detect_all_typologies i).Pairwise (fun a b => b.confidence ≤ a.confidence) ∧
    (∀ q : ℚ, (detect_all_typologies i).filter (fun m => decide (m.confidence = q)) =
      (typologyCandidates i).filter (fun m => decide (m.confidence = q))) ∧
    (∀ m, m ∈ detect_all_typologies i → 0 ≤ m.confidence ∧ m.confidence ≤ 1) := by
  refine ⟨List.mergeSort_perm _ _, ?_, fun q => mergeSort_filter_confidence _ q, ?_⟩
  · have hs := List.sorted_mergeSort confidenceGE_trans confidenceGE_total
      (typologyCandidates i)
    exact hs.imp (fun hab => by simpa [confidenceGE] using hab)
  · intro m hm
    rw [detect_all_typologies, List.mem_mergeSort] at hm
    unfold typologyCandidates at hm
    simp only [List.mem_filterMap, id_eq, List.mem_cons, List.not_mem_nil, or_false] at hm
    rcases hm with ⟨a, hmem, hid⟩
    rcases hmem with h1 | h1 | h1 | h1 | h1 <;> subst h1
    · exact detect_structuring_bounds hid
    · exact detect_smurfing_bounds hid
    · exact detect_layering_bounds hid
    · exact detect_shell_company_bounds hid
    · exact detect_tbml_bounds hid

/-- Unfolding of the recommended-action priority chain of `generate_sar_draft`. -/
theorem generate_sar_draft_recommended_action (i : TribunalInput)
    (t : Option TypologyMatch) (rf : List RiskFactor) (reasoning : String) :
    (generate_sar_draft i t rf reasoning).recommended_action =
      (if (match t with | some m => decide (m.confidence > 0.7) | none => false) then
        "file_sar"
      else if rf.any (fun f => f.severity == "critical") then "file_sar"
      else if rf.length ≥ 3 then "escalate_to_compliance"
      else "enhanced_monitoring") := rfl

/-- C7: `recommended_action` is chosen by the first matching rule, in order:
`file_sar` when a typology with confidence above 0.7 is present; else `file_sar`
when some risk factor is `critical`; else `escalate_to_compliance` when at
least 3 risk factors exist; else `enhanced_monitoring`. -/
theorem sar_recommended_action_priority (i : TribunalInput) (t : Option TypologyMatch)
    (rf : List RiskFactor) (reasoning : String) :
    ((∃ m, t = some m ∧ m.confidence > 0.7) →
      (generate_sar_draft i t rf reasoning).recommended_action = "file_sar") ∧
    ((¬∃ m, t = some m ∧ m.confidence > 0.7) → (∃ f ∈ rf, f.severity = "critical") →
      (generate_sar_draft i t rf reasoning).recommended_action = "file_sar") ∧
    ((¬∃ m, t = some m ∧ m.confidence > 0.7) → (¬∃ f ∈ rf, f.severity = "critical") →
      3 ≤ rf.length →
      (generate_sar_draft i t rf reasoning).recommended_action = "escalate_to_compliance") ∧
    ((¬∃ m, t = some m ∧ m.confidence > 0.7) → (¬∃ f ∈ rf, f.severity = "critical") →
      rf.length < 3 →
      (generate_sar_draft i t rf reasoning).recommended_action = "enhanced_monitoring") := by
  have htyp : (match t with | some m => decide (m.confidence > 0.7) | none => false) = true ↔
      (∃ m, t = some m ∧ m.confidence > 0.7) := by
    cases t <;> simp
  have hcrit : (rf.any fun f => f.severity == "critical") = true ↔
      ∃ f ∈ rf, f.severity = "critical" := by
    simp [List.any_eq_true]
  refine ⟨?_, ?_, ?_, ?_⟩
  · intro hex
    rw [generate_sar_draft_recommended_action, if_pos (htyp.mpr hex)]
  · intro hne hex
    rw [generate_sar_draft_recommended_action,
        if_neg (fun hh => hne (htyp.mp hh)), if_pos (hcrit.mpr hex)]
  · intro hne hnc hge
    rw [generate_sar_draft_recommended_action,
        if_neg (fun hh => hne (htyp.mp hh)), if_neg (fun hh => hnc (hcrit.mp hh)),
        if_pos hge]
  · intro hne hnc hlt
    rw [generate_sar_draft_recommended_action,
        if_neg (fun hh => hne (htyp.mp hh)), if_neg (fun hh => hnc (hcrit.mp hh)),
        if_neg (by omega)]

/-- C1: for gate scores within their declared bounds, any returned
`PipelineResult` has a decision among BLOCK/APPROVE/REVIEW and a confidence in
[0,1], on all three exit paths. -/
theorem pipeline_decision_and_confidence_in_range
    (statAnalyze : Transaction → AccountHistory → StatResult)
    (narrAnalyze : Transaction → AccountHistory → NarrResult)
    (llm : LLMDict) (tx : Transaction) (hist : AccountHistory) (r : PipelineResult)
    (hs0 : 0 ≤ (statAnalyze tx hist).score) (hs10 : (statAnalyze tx hist).score ≤ 10)
    (hn0 : 0 ≤ (narrAnalyze tx hist).score) (hn1 : (narrAnalyze tx hist).score ≤ 1)
    (h : Pipeline.process statAnalyze narrAnalyze llm tx hist = some r) :
    (r.final_decision = Decision.BLOCK ∨ r.final_decision = Decision.APPROVE ∨
      r.final_decision = Decision.REVIEW) ∧
    0 ≤ r.final_confidence ∧ r.final_confidence ≤ 1 := by
  refine ⟨Decision.eq_block_or_approve_or_review r.final_decision, ?_⟩
  simp only [Pipeline.process] at h
  by_cases hp1 : (statAnalyze tx hist).passed = true
  · rw [if_pos hp1] at h
    injection h with h2
    subst h2
    constructor
    · show (0:ℚ) ≤ 1.0 - (statAnalyze tx hist).score / 10.0
      nlinarith [hs10]
    · show (1.0:ℚ) - (statAnalyze tx hist).score / 10.0 ≤ 1
      nlinarith [hs0]
  · rw [if_neg hp1] at h
    by_cases hp2 : (narrAnalyze tx hist).passed = true
    · rw [if_pos hp2] at h
      injection h with h2
      subst h2
      exact ⟨hn0, hn1⟩
    · rw [if_neg hp2] at h
      rcases hmi : mkTribunalInput tx (statAnalyze tx hist).score
          (narrAnalyze tx hist).score hist
          (if (!(statAnalyze tx hist).passed && !(narrAnalyze tx hist).passed) then "both"
           else if !(statAnalyze tx hist).passed then "statistical"
           else "narrative") with _ | ti
      · rw [hmi] at h
        exact absurd h (by simp)
      · rw [hmi] at h
        dsimp only at h
        rcases hv : ExpertAgent.analyze ti llm with _ | v
        · rw [hv] at h
          exact absurd h (by simp)
        · rw [hv] at h
          injection h with h2
          subst h2
          have hspec := analyze_some_spec hv
          exact ⟨hspec.2.2.1, hspec.2.2.2.1⟩

/-- C2: when the statistical gate passes, the pipeline returns immediately with
decision APPROVE, confidence `1 - score/10`, layers `["statistical"]`, no
narrative or expert result — and the result does not depend on the narrative
gate or the reasoning service at all (they are never invoked). -/
theorem statistical_pass_early_exit
    (statAnalyze : Transaction → AccountHistory → StatResult)
    (narrAnalyze narrAnalyze2 : Transaction → AccountHistory → NarrResult)
    (llm llm2 : LLMDict) (tx : Transaction) (hist : AccountHistory)
    (hpass : (statAnalyze tx hist).passed = true) :
    Pipeline.process statAnalyze narrAnalyze llm tx hist =
      some { transaction_id := tx.txn_id,
             statistical_result :=
               { layer := "statistical", score := (statAnalyze tx hist).score,
                 passed := (statAnalyze tx hist).passed,
                 details := (statAnalyze tx hist).details },
             narrative_result := none, expert_result := none,
             final_decision := Decision.APPROVE,
             final_confidence := 1.0 - (statAnalyze tx hist).score / 10.0,
             layers_invoked := ["statistical"] } ∧
    Pipeline.process statAnalyze narrAnalyze llm tx hist =
      Pipeline.process statAnalyze narrAnalyze2 llm2 tx hist := by
  have key : ∀ (na : Transaction → AccountHistory → NarrResult) (ll : LLMDict),
      Pipeline.process statAnalyze na ll tx hist =
        some { transaction_id := tx.txn_id,
               statistical_result :=
                 { layer := "statistical", score := (statAnalyze tx hist).score,
                   passed := (statAnalyze tx hist).passed,
                   details := (statAnalyze tx hist).details },
               narrative_result := none, expert_result := none,
               final_decision := Decision.APPROVE,
               final_confidence := 1.0 - (statAnalyze tx hist).score / 10.0,
               layers_invoked := ["statistical"] } := by
    intro na ll
    simp only [Pipeline.process]
    rw [if_pos hpass]
  exact ⟨key narrAnalyze llm, (key narrAnalyze llm).trans (key narrAnalyze2 llm2).symm⟩

/-- C9: at amount 9500 with clean statistical/narrative scores and no primary
typology, the synthesizer emits exactly the one `medium` near-threshold factor;
in general a "Near-Threshold Amount" factor appears exactly when the amount
lies in [9000, 10000). -/
theorem near_threshold_amount_factor (i : TribunalInput) :
    (i.transaction.amount_sent = 9500 → i.statistical_score ≤ 5 →
      (0.5 : ℚ) ≤ i.narrative_score →
      get_risk_factors i none =
        [{ factor := "Near-Threshold Amount", severity := "medium",
           description := "Transaction amount is just below $10,000 reporting threshold",
           evidence := ["Amount: $" ++ toString i.transaction.amount_sent] }]) ∧
    (∀ t : Option TypologyMatch,
      (get_risk_factors i t).any (fun f => f.factor == "Near-Threshold Amount") = true ↔
        (9000 ≤ i.transaction.amount_sent ∧ i.transaction.amount_sent < 10000)) := by
  constructor
  · intro hamt hstat hnarr
    have h7 : ¬ (i.statistical_score > 7.0) := by intro hh; linarith
    have h5 : ¬ (i.statistical_score > 5.0) := by intro hh; linarith
    have h03 : ¬ (i.narrative_score < 0.3) := by intro hh; linarith
    have h05 : ¬ (i.narrative_score < 0.5) := by intro hh; linarith
    have hcond : 9000 ≤ i.transaction.amount_sent ∧ i.transaction.amount_sent < 10000 := by
      constructor <;> rw [hamt] <;> norm_num
    simp only [get_risk_factors]
    rw [if_neg h7, if_neg h5, if_neg h03, if_neg h05, if_pos hcond]
    simp
  · intro t
    simp only [get_risk_factors, List.any_append, Bool.or_eq_true]
    cases t with
    | none => split_ifs <;> simp_all
    | some m => split_ifs <;> simp_all [pattern_detected_ne_near_threshold]

/-- Concrete sender used by the concrete test inputs. -/
def partyA : TransactionParty := { account_id := "ACCT-001", bank_id := "BANK-01" }

/-- Concrete receiver used by the concrete test inputs. -/
def partyB : TransactionParty := { account_id := "ACCT-002", bank_id := "BANK-02" }

/-- Concrete transaction builder for test inputs. -/
def mkSimpleTx (amount : ℚ) (fmt : String) : Transaction :=
  { txn_id := some "TXN-001", sender := partyA, receiver := partyB,
    amount := { sent := amount, received := amount }, payment_format := fmt,
    timestamp := 100 }

/-- Concrete account-stats builder for test inputs. -/
def mkSimpleStats (tt : Nat) (ts tr avg std : ℚ) (uc : Nat) (freq : ℚ) : AccountStats :=
  { total_transactions := tt, total_sent := ts, total_received := tr,
    avg_transaction_amount := avg, std_transaction_amount := std,
    unique_counterparties := uc, first_transaction := 0, last_transaction := 90,
    transaction_frequency_per_day := freq }

/-- Concrete account-history builder for test inputs. -/
def mkSimpleHistory (stats : AccountStats) : AccountHistory :=
  { account_id := "ACCT-001", bank_id := "BANK-01", stats := stats }

/-- Concrete input matching all of C8's fixed fields (amount 750, statistical
1.5, narrative 0.85, frequency 0.5/day, 8 counterparties) whose remaining
history fields make the account an exact passthrough with a high average:
600000 sent and received over 10 transactions, average 60000. -/
def shellInput : TribunalInput :=
  { transaction := mkSimpleTx 750 "ACH",
    statistical_score := 1.5, narrative_score := 0.85,
    account_history := mkSimpleHistory (mkSimpleStats 10 600000 600000 60000 0 8 0.5),
    triggered_by := "both" }

/-- The Shell Company match emitted on `shellInput`. -/
def shellInputMatch : TypologyMatch :=
  { name := "Shell Company Activity", confidence := 0.6,
    signals_matched := ["exact_passthrough", "high_value_low_frequency"],
    description := shell_company_description }

/-- On `shellInput`, exactly the Shell Company detector fires. -/
theorem detect_all_shellInput_eq :
    detect_all_typologies shellInput = [shellInputMatch] := by
  have h1 : detect_structuring shellInput = none := by
    simp only [detect_structuring, structuringSignals, shellInput, mkSimpleTx,
      mkSimpleStats, mkSimpleHistory, Transaction.amount_sent, isMultipleOf100]
    norm_num
  have h2 : detect_smurfing shellInput = none := by
    simp only [detect_smurfing, smurfingSignals, shellInput, mkSimpleTx,
      mkSimpleStats, mkSimpleHistory, Transaction.amount_sent]
    norm_num
  have h3 : detect_layering shellInput = none := by
    simp only [detect_layering, layeringSignals, shellInput, mkSimpleTx,
      mkSimpleStats, mkSimpleHistory]
    norm_num
  have h4 : detect_shell_company shellInput = some shellInputMatch := by
    simp only [detect_shell_company, shellCompanySignals, shellInput, mkSimpleTx,
      mkSimpleStats, mkSimpleHistory, shellInputMatch]
    norm_num [min_def]
    simp
  have h5 : detect_tbml shellInput = none := by
    simp only [detect_tbml, tbmlSignals, shellInput, mkSimpleTx,
      mkSimpleStats, mkSimpleHistory, Transaction.amount_sent]
    rw [if_neg (by decide : ¬("ACH" : String) = "Wire")]
    norm_num
  rw [detect_all_typologies, typologyCandidates, h1, h2, h3, h4, h5]
  simp

/-- C8 counterexample: on `shellInput` — whose gated fields are exactly those
fixed by the claim — `detect_all_typologies` is nonempty (the Shell Company
detector fires at confidence 0.6 from `exact_passthrough` and
`high_value_low_frequency`), and the synthesized risk factors contain a
severity-"high" factor. -/
theorem clean_input_shell_company_counterexample :
    shellInput.transaction.amount_sent = 750 ∧ shellInput.statistical_score = 1.5 ∧
    shellInput.narrative_score = 0.85 ∧
    shellInput.account_history.stats.transaction_frequency_per_day = 0.5 ∧
    shellInput.account_history.stats.unique_counterparties = 8 ∧
    detect_all_typologies shellInput ≠ [] ∧
    (get_risk_factors shellInput (detect_all_typologies shellInput).head?).map
      (fun f => f.severity) = ["high"] := by
  refine ⟨rfl, rfl, rfl, rfl, rfl, ?_, ?_⟩ <;> rw [detect_all_shellInput_eq]
  · simp
  · simp only [List.head?_cons, get_risk_factors, shellInput, mkSimpleTx, mkSimpleStats,
      mkSimpleHistory, shellInputMatch, Transaction.amount_sent]
    norm_num

/-- C8 amended: with amount 750, statistical 1.5, narrative 0.85, frequency
0.5/day and 8 unique counterparties, and the remaining history fields arbitrary
except that the account is not simultaneously an exact passthrough (positive
totals with sent/received within [0.95, 1.05]) and high-average (average
transaction amount above 50000), `detect_all_typologies` returns the empty list
and no synthesized risk factor has severity "high" or "critical". -/
theorem clean_input_no_typology_amended (i : TribunalInput)
    (hamt : i.transaction.amount_sent = 750)
    (hstat : i.statistical_score = 1.5)
    (hnarr : i.narrative_score = 0.85)
    (hfreq : i.account_history.stats.transaction_frequency_per_day = 0.5)
    (huc : i.account_history.stats.unique_counterparties = 8)
    (hshell : ¬(i.account_history.stats.total_sent > 0 ∧
        i.account_history.stats.total_received > 0 ∧
        (0.95 : ℚ) ≤ i.account_history.stats.total_sent /
          i.account_history.stats.total_received ∧
        i.account_history.stats.total_sent / i.account_history.stats.total_received ≤ 1.05 ∧
        i.account_history.stats.avg_transaction_amount > 50000)) :
    detect_all_typologies i = [] ∧
    ∀ f ∈ get_risk_factors i (detect_all_typologies i).head?,
      f.severity ≠ "high" ∧ f.severity ≠ "critical" := by
  have h1 : detect_structuring i = none := by
    simp only [detect_structuring, structuringSignals]
    rw [hamt, hstat, hnarr, hfreq]
    norm_num
  have h2 : detect_smurfing i = none := by
    simp only [detect_smurfing, smurfingSignals]
    rw [hamt, hstat, hnarr, hfreq, huc]
    norm_num
    try (split_ifs <;> norm_num)
  have h3 : detect_layering i = none := by
    simp only [detect_layering, layeringSignals]
    rw [hstat, hnarr, hfreq]
    norm_num
    try (split_ifs <;> norm_num)
  have h4 : detect_shell_company i = none := by
    simp only [detect_shell_company, shellCompanySignals]
    rw [hstat, hfreq, huc]
    norm_num
    split_ifs with hc1 hc2 <;> try norm_num
    exact absurd ⟨hc2.1, hc2.2.1, by linarith [hc2.2.2.1], by linarith [hc2.2.2.2],
      by linarith [hc1]⟩ hshell
  have h5 : detect_tbml i = none := by
    simp only [detect_tbml, tbmlSignals]
    rw [hamt, hstat, hnarr]
    norm_num
    try (split_ifs <;> norm_num)
  have hall : detect_all_typologies i = [] := by
    rw [detect_all_typologies, typologyCandidates, h1, h2, h3, h4, h5]
    simp
  have hrf : get_risk_factors i none = [] := by
    simp only [get_risk_factors]
    rw [hamt, hstat, hnarr]
    norm_num
  refine ⟨hall, ?_⟩
  rw [hall]
  simp [List.head?_nil, hrf]

/-- Concrete statistical gate that passes with score 2. -/
def statPassFn : Transaction → AccountHistory → StatResult :=
  fun _ _ => { score := 2, passed := true }

/-- Concrete narrative gate that passes with score 0.9. -/
def narrFnA : Transaction → AccountHistory → NarrResult :=
  fun _ _ => { score := 0.9, passed := true }

/-- Concrete narrative gate that fails with score 0.2. -/
def narrFnB : Transaction → AccountHistory → NarrResult :=
  fun _ _ => { score := 0.2, passed := false }

/-- Concrete transaction used by the pipeline witnesses. -/
def txEx : Transaction := mkSimpleTx 100 "Wire"

/-- Concrete history used by the pipeline witnesses. -/
def histEx : AccountHistory := mkSimpleHistory (mkSimpleStats 10 1000 2000 100 0 8 0.5)

/-- The early-exit result produced by `statPassFn` on `txEx`/`histEx`. -/
def passResult : PipelineResult :=
  { transaction_id := some "TXN-001",
    statistical_result := { layer := "statistical", score := 2, passed := true,
                            details := [] },
    narrative_result := none, expert_result := none,
    final_decision := Decision.APPROVE, final_confidence := 1.0 - 2 / 10.0,
    layers_invoked := ["statistical"] }

/-- The early-exit run used by the C1 witness. -/
theorem process_statPass_eq :
    Pipeline.process statPassFn narrFnA {} txEx histEx = some passResult := by
  simp only [Pipeline.process, statPassFn, passResult, txEx, mkSimpleTx]
  simp

/-- Witness for C1 at the early-exit instantiation. -/
theorem pipeline_decision_and_confidence_in_range_witness :
    (passResult.final_decision = Decision.BLOCK ∨
      passResult.final_decision = Decision.APPROVE ∨
      passResult.final_decision = Decision.REVIEW) ∧
    0 ≤ passResult.final_confidence ∧ passResult.final_confidence ≤ 1 :=
  pipeline_decision_and_confidence_in_range statPassFn narrFnA {} txEx histEx passResult
    (by norm_num [statPassFn]) (by norm_num [statPassFn])
    (by norm_num [narrFnA]) (by norm_num [narrFnA]) process_statPass_eq

/-- Witness for C2: with a passing statistical gate the pipeline result is
independent of the narrative gate and of the reasoning response. -/
theorem statistical_pass_early_exit_witness :
    Pipeline.process statPassFn narrFnA ({} : LLMDict) txEx histEx =
      Pipeline.process statPassFn narrFnB ({ decision := some "BLOCK" } : LLMDict)
        txEx histEx :=
  (statistical_pass_early_exit statPassFn narrFnA narrFnB {}
    { decision := some "BLOCK" } txEx histEx rfl).2

/-- Concrete escalated input on which no typology detector fires. -/
def cleanInput : TribunalInput :=
  { transaction := mkSimpleTx 100 "ACH",
    statistical_score := 6, narrative_score := 0.6,
    account_history := histEx, triggered_by := "both" }

/-- Concrete parsed reasoning-service response: a low-confidence BLOCK. -/
def llmB : LLMDict :=
  { decision := some "BLOCK", confidence := some 0.7,
    reasoning := some "insufficient certainty", key_risk_factors := some [],
    regulatory_citations := some [] }

/-- On `cleanInput` no detector fires. -/
theorem detect_all_cleanInput_eq : detect_all_typologies cleanInput = [] := by
  have h1 : detect_structuring cleanInput = none := by
    simp only [detect_structuring, structuringSignals, cleanInput, mkSimpleTx,
      mkSimpleStats, mkSimpleHistory, histEx, Transaction.amount_sent, isMultipleOf100]
    norm_num
  have h2 : detect_smurfing cleanInput = none := by
    simp only [detect_smurfing, smurfingSignals, cleanInput, mkSimpleTx,
      mkSimpleStats, mkSimpleHistory, histEx, Transaction.amount_sent]
    norm_num
  have h3 : detect_layering cleanInput = none := by
    simp only [detect_layering, layeringSignals, cleanInput, mkSimpleTx,
      mkSimpleStats, mkSimpleHistory, histEx]
    norm_num
  have h4 : detect_shell_company cleanInput = none := by
    simp only [detect_shell_company, shellCompanySignals, cleanInput, mkSimpleTx,
      mkSimpleStats, mkSimpleHistory, histEx]
    norm_num
  have h5 : detect_tbml cleanInput = none := by
    simp only [detect_tbml, tbmlSignals, cleanInput, mkSimpleTx,
      mkSimpleStats, mkSimpleHistory, histEx, Transaction.amount_sent]
    rw [if_neg (by decide : ¬("ACH" : String) = "Wire")]
    norm_num
  rw [detect_all_typologies, typologyCandidates, h1, h2, h3, h4, h5]
  simp

/-- The adjusted decision on `llmB` is a demotion to REVIEW. -/
theorem adjustedDecision_llmB : adjustedDecision llmB = "REVIEW" := by
  simp only [adjustedDecision, llmB, Option.getD_some]
  norm_num [THRESHOLDS]

/-- The expert agent returns a verdict on `cleanInput`/`llmB`. -/
theorem analyze_cleanInput_isSome : (ExpertAgent.analyze cleanInput llmB).isSome := by
  simp only [ExpertAgent.analyze]
  rw [detect_all_cleanInput_eq, adjustedDecision_llmB]
  simp only [llmB, Option.getD_some, List.mapM_nil, List.head?_nil]
  simp only [mkTribunalVerdict, parseDecision, cleanInput]
  norm_num

/-- Witness for C3 at the low-confidence BLOCK instantiation. -/
theorem expert_confidence_floor_downgrade_witness :
    ((ExpertAgent.analyze cleanInput llmB).get analyze_cleanInput_isSome).decision =
      Decision.REVIEW :=
  (expert_confidence_floor_downgrade cleanInput llmB _
      (Option.some_get analyze_cleanInput_isSome).symm).1 rfl
    (by norm_num [llmB, THRESHOLDS])

/-- Witness for C4 at the same instantiation. -/
theorem sar_draft_iff_block_or_review_witness :
    (((ExpertAgent.analyze cleanInput llmB).get analyze_cleanInput_isSome).sar_draft ≠
        none ↔
      ((ExpertAgent.analyze cleanInput llmB).get analyze_cleanInput_isSome).decision =
          Decision.BLOCK ∨
        ((ExpertAgent.analyze cleanInput llmB).get analyze_cleanInput_isSome).decision =
          Decision.REVIEW) ∧
    (((ExpertAgent.analyze cleanInput llmB).get analyze_cleanInput_isSome).decision =
        Decision.APPROVE →
      ((ExpertAgent.analyze cleanInput llmB).get analyze_cleanInput_isSome).sar_draft =
        none) :=
  sar_draft_iff_block_or_review cleanInput llmB _
    (Option.some_get analyze_cleanInput_isSome).symm

/-- Witness for C10 at the same instantiation. -/
theorem downgrade_frame_invariance_witness :
    ((ExpertAgent.analyze cleanInput llmB).get analyze_cleanInput_isSome).confidence =
      llmB.confidence.getD 0.5 :=
  (downgrade_frame_invariance cleanInput llmB _
    (Option.some_get analyze_cleanInput_isSome).symm).1

/-- Witness for C5: the bound, instantiated at the match returned on `shellInput`. -/
theorem detect_all_typologies_sorted_bounded_witness :
    0 ≤ shellInputMatch.confidence ∧ shellInputMatch.confidence ≤ 1 :=
  (detect_all_typologies_sorted_bounded shellInput).2.2.2 shellInputMatch
    (by rw [detect_all_shellInput_eq]; exact List.mem_singleton_self _)

/-- Concrete reasoning-service response containing no JSON object. -/
def noJsonResponse : String := "The transaction looks fine to me."

/-- Witness for C6 at a braceless response and an always-failing parser. -/
theorem llm_parse_failure_fallback_witness :
    getLLMDecision noJsonResponse (fun _ => none) =
      { decision := some "REVIEW", confidence := some 0.5,
        reasoning := some noJsonResponse, key_risk_factors := some [],
        regulatory_citations := some [] } :=
  llm_parse_failure_fallback noJsonResponse (fun _ => none) (fun _ _ => rfl)

/-- A high-confidence typology match used by the C7 witness. -/
def highMatch : TypologyMatch :=
  { name := "Structuring", confidence := 0.8,
    signals_matched := ["amount_near_10k_threshold"],
    description := structuring_description }

/-- Witness for C7: first rule fires on a confidence-0.8 typology. -/
theorem sar_recommended_action_priority_witness :
    (generate_sar_draft cleanInput (some highMatch) [] "r").recommended_action =
      "file_sar" :=
  (sar_recommended_action_priority cleanInput (some highMatch) [] "r").1
    ⟨highMatch, rfl, by norm_num [highMatch]⟩

/-- Concrete input with amount 9500 and clean scores, for the C9 witness. -/
def nearInput : TribunalInput :=
  { transaction := mkSimpleTx 9500 "Wire",
    statistical_score := 4, narrative_score := 0.6,
    account_history := histEx, triggered_by := "both" }

/-- Witness for C9 at amount 9500. -/
theorem near_threshold_amount_factor_witness :
    get_risk_factors nearInput none =
      [{ factor := "Near-Threshold Amount", severity := "medium",
         description := "Transaction amount is just below $10,000 reporting threshold",
         evidence := ["Amount: $" ++ toString nearInput.transaction.amount_sent] }] :=
  (near_threshold_amount_factor nearInput).1 rfl (by norm_num [nearInput])
    (by norm_num [nearInput])

/-- Concrete input with the C8 fixed fields and a non-passthrough history, for
the amended-C8 witness. -/
def clean750 : TribunalInput :=
  { transaction := mkSimpleTx 750 "ACH",
    statistical_score := 1.5, narrative_score := 0.85,
    account_history := histEx, triggered_by := "both" }

/-- Witness for the amended C8 at a non-passthrough history. -/
theorem clean_input_no_typology_amended_witness :
    detect_all_typologies clean750 = [] :=
  (clean_input_no_typology_amended clean750 rfl rfl rfl rfl rfl
    (by norm_num [clean750, histEx, mkSimpleHistory, mkSimpleStats])).1
